import Mathlib

/-!
Verification development for the WebChatApp client session core.

The definitions below are a shallow embedding of the client-side
JavaScript modules `api.js` (class `ApiService`), `auth.js`
(class `AuthManager`) and `rooms.js` (class `RoomsManager`).
`localStorage` is modelled as an explicit record of the four slots the
code uses (`chatToken`, `chatRefreshToken`, `chatTokenExpiry`,
`chatUser`); JavaScript `Date.now()` is an explicit `now : Int`
parameter; network responses are explicit arguments, so every function
is pure and executable.  Absent `localStorage` entries are `none`;
JavaScript falsiness of `null`/`undefined`/`0` is reproduced where the
code tests a value with `if (v)`.
-/

namespace WebChat

/-- The four `localStorage` slots used by the client
(`CONFIG.TOKEN_KEY`, `CONFIG.REFRESH_TOKEN_KEY`,
`CONFIG.TOKEN_EXPIRY_KEY`, `CONFIG.USER_KEY`). -/
structure Storage where
  token : Option String
  refreshToken : Option String
  tokenExpiry : Option Int
  user : Option String
deriving Repr, DecidableEq

/-- Embedding of `ApiService.setTokens(accessToken, refreshToken, expiresIn)`:
always stores the access token; stores the refresh token only when the
argument is truthy (`if (refreshToken)`); stores
`Date.now() + expiresIn * 1000` as the expiry only when `expiresIn` is
truthy (`if (expiresIn)`, so `0` is skipped like `null`). -/
def ApiService.setTokens (s : Storage) (now : Int) (accessToken : String)
    (refreshToken : Option String) (expiresIn : Option Int) : Storage :=
  let s1 := { s with token := some accessToken }
  let s2 :=
    match refreshToken with
    | some rt => if rt = "" then s1 else { s1 with refreshToken := some rt }
    | none => s1
  match expiresIn with
  | some e => if e = 0 then s2 else { s2 with tokenExpiry := some (now + e * 1000) }
  | none => s2

/-- Embedding of `ApiService.clearTokens()`: removes the access token, the
refresh token and the expiry slot.  It does not touch `CONFIG.USER_KEY`. -/
def ApiService.clearTokens (s : Storage) : Storage :=
  { s with token := none, refreshToken := none, tokenExpiry := none }

/-- Embedding of `ApiService.isTokenExpiringSoon()`: `true` when no expiry
is stored, otherwise `Date.now() > parseInt(expiry) - 120000`. -/
def ApiService.isTokenExpiringSoon (s : Storage) (now : Int) : Bool :=
  match s.tokenExpiry with
  | none => true
  | some e => decide (now > e - 120000)

/-- The body the issuer sends back on the `/api/refresh` exchange, together
with the HTTP ok-flag of the response. -/
structure RefreshResponse where
  ok : Bool
  access_token : String
  expires_in : Option Int
deriving Repr, DecidableEq

/-- Embedding of the storage effect of one `ApiService.refreshAccessToken()`
network exchange (the body of the `.then` handler): with no refresh token
stored the call throws before any exchange; on a non-ok response the
tokens are cleared and an error is thrown; on an ok response
`setTokens(data.access_token, null, data.expires_in)` runs and the new
access token is returned. -/
def ApiService.refreshAccessToken (s : Storage) (now : Int)
    (resp : RefreshResponse) : Storage × Except String String :=
  match s.refreshToken with
  | none => (s, Except.error "No refresh token available")
  | some _ =>
    if resp.ok then
      (ApiService.setTokens s now resp.access_token none resp.expires_in,
        Except.ok resp.access_token)
    else
      (ApiService.clearTokens s, Except.error "Token refresh failed")

/-- The network responses a single `ApiService.fetchWithAuth` call may
consume: the issuer's answer to a refresh exchange issued before the
request, the HTTP status of the request itself, the issuer's answer to
the refresh exchange issued after a 401, and the status of the retried
request. -/
structure FetchScript where
  refreshResp1 : RefreshResponse
  status1 : Nat
  refreshResp2 : RefreshResponse
  status2 : Nat
deriving Repr, DecidableEq

/-- Observable outcome of one `ApiService.fetchWithAuth` call: the number of
refresh network exchanges issued, the number of times the wrapped request
was sent, the HTTP status returned to the caller, and the final storage. -/
structure FetchTrace where
  refreshCalls : Nat
  fetchCalls : Nat
  status : Nat
  storage : Storage
deriving Repr, DecidableEq

/-- The pre-request step of `ApiService.fetchWithAuth`: when
`isTokenExpiringSoon() && getRefreshToken()` a refresh is attempted and
any failure is caught (`console.warn`), so only the storage effect and
the fact that an exchange happened remain. -/
def ApiService.preRefresh (s : Storage) (now : Int) (resp : RefreshResponse) :
    Storage × Nat :=
  if ApiService.isTokenExpiringSoon s now && s.refreshToken.isSome then
    ((ApiService.refreshAccessToken s now resp).1, 1)
  else (s, 0)

/-- Embedding of `ApiService.fetchWithAuth(url, options)`: optional
best-effort refresh before the request, the request itself, and — when
the response status is 401 and a refresh token is (still) stored — one
refresh attempt followed by exactly one retried request when that
refresh succeeded; when that refresh fails the catch swallows the error
and the original 401 response is returned. -/
def ApiService.fetchWithAuth (s : Storage) (now : Int) (sc : FetchScript) :
    FetchTrace :=
  let pre := ApiService.preRefresh s now sc.refreshResp1
  let s1 := pre.1
  if sc.status1 = 401 && s1.refreshToken.isSome then
    let r2 := ApiService.refreshAccessToken s1 now sc.refreshResp2
    match r2.2 with
    | Except.ok _ =>
      { refreshCalls := pre.2 + 1, fetchCalls := 2, status := sc.status2,
        storage := r2.1 }
    | Except.error _ =>
      { refreshCalls := pre.2 + 1, fetchCalls := 1, status := sc.status1,
        storage := r2.1 }
  else
    { refreshCalls := pre.2, fetchCalls := 1, status := sc.status1,
      storage := s1 }

/-!
Single-flight model of `ApiService.refreshAccessToken`.

JavaScript runs each synchronous section of `refreshAccessToken` to
completion: from the `if (this.refreshPromise)` test up to the assignment
`this.refreshPromise = fetch(...)...` there is no `await`, so concurrent
callers are serialized by the event loop.  We therefore model the
instance state (`refreshPromise`, plus a counter of network exchanges
started) and one call as an atomic step: a caller either receives the
promise already in flight, or starts a new exchange (when a refresh
token exists) and receives its promise, identified by the exchange
number.  The `.finally` handler that resets `refreshPromise` to `null`
is the `settle` step.  Awaiting a promise delivers the settlement of the
exchange it identifies — the same success or rejection to every holder.
-/

/-- Instance state of `ApiService` relevant to single-flight refresh:
`refreshPromise` holds the identifier of the in-flight exchange (the
promise all concurrent callers share), `exchanges` counts network
round-trips to `/api/refresh` started so far. -/
structure RefreshFlightState where
  refreshPromise : Option Nat
  exchanges : Nat
deriving Repr, DecidableEq

/-- One atomic entry into `refreshAccessToken`: return the promise already
in flight if any; otherwise throw when no refresh token is stored, or
start exchange number `exchanges` and publish its promise. -/
def ApiService.refreshCall (s : RefreshFlightState) (hasRefreshToken : Bool) :
    RefreshFlightState × Except String Nat :=
  match s.refreshPromise with
  | some p => (s, Except.ok p)
  | none =>
    if hasRefreshToken then
      ({ refreshPromise := some s.exchanges, exchanges := s.exchanges + 1 },
        Except.ok s.exchanges)
    else (s, Except.error "No refresh token available")

/-- The `.finally` handler: once the in-flight exchange settles,
`refreshPromise` is reset to `null`. -/
def ApiService.settleFlight (s : RefreshFlightState) : RefreshFlightState :=
  { s with refreshPromise := none }

/-- A burst of `n` calls to `refreshAccessToken`, each by a caller holding a
refresh token, with no settlement in between (all arrive while the first
call's exchange is still in flight). -/
def ApiService.refreshBurst (s : RefreshFlightState) :
    Nat → RefreshFlightState × List (Except String Nat)
  | 0 => (s, [])
  | n + 1 =>
    let c := ApiService.refreshCall s true
    let rest := ApiService.refreshBurst c.1 n
    (rest.1, c.2 :: rest.2)

/-- Awaiting the value returned by one `refreshAccessToken` call: a thrown
error is observed directly; a promise delivers the settlement of the
exchange it identifies. -/
def ApiService.awaitRefresh (outcome : Nat → Except String RefreshResponse)
    (r : Except String Nat) : Except String RefreshResponse :=
  match r with
  | Except.error m => Except.error m
  | Except.ok p => outcome p

/-!
Embedding of `auth.js` (class `AuthManager`).
-/

/-- The `pending2FA` record stored between the first-factor acceptance and
the second-factor completion: the original credentials and the obscured
e-mail hint (`this.pending2FA = { username, password, emailHint }`). -/
structure Pending2FA where
  username : String
  password : String
  emailHint : String
deriving Repr, DecidableEq

/-- Instance state of `AuthManager` (plus the `localStorage` it writes):
`currentUser`, `authToken` and `pending2FA`. -/
structure AuthManagerState where
  storage : Storage
  pending2FA : Option Pending2FA
  currentUser : Option String
  authToken : Option String
deriving Repr, DecidableEq

/-- Embedding of `AuthManager.saveAuth(accessToken, user, refreshToken)`:
stores the token and the serialized user, stores the refresh token only
when truthy, and sets the in-memory fields. -/
def AuthManager.saveAuth (s : AuthManagerState) (accessToken user : String)
    (refreshToken : Option String) : AuthManagerState :=
  let st1 := { s.storage with token := some accessToken, user := some user }
  let st2 :=
    match refreshToken with
    | some rt => if rt = "" then st1 else { st1 with refreshToken := some rt }
    | none => st1
  { s with storage := st2, authToken := some accessToken, currentUser := some user }

/-- What `api.login(username, password)` reports back to `AuthManager.login`:
a `requires_2fa` branch with an e-mail hint, a success carrying tokens and
the user record, or a thrown error. -/
inductive LoginApiResult
  | requires2fa (emailHint : String)
  | success (accessToken user : String) (refreshToken : Option String)
  | failure (msg : String)
deriving Repr, DecidableEq

/-- Embedding of `AuthManager.login(username, password)`: the call first
awaits `api.login`; a thrown error propagates before any assignment, so
the state (including `pending2FA`) is untouched.  On `requires_2fa` the
new credentials replace `pending2FA`; on success `saveAuth` runs and
`pending2FA` is set to `null`. -/
def AuthManager.login (s : AuthManagerState) (username password : String)
    (resp : LoginApiResult) : AuthManagerState × Except String Unit :=
  match resp with
  | LoginApiResult.failure m => (s, Except.error m)
  | LoginApiResult.requires2fa hint =>
    ({ s with pending2FA := some ⟨username, password, hint⟩ }, Except.ok ())
  | LoginApiResult.success tok user rt =>
    ({ AuthManager.saveAuth s tok user rt with pending2FA := none }, Except.ok ())

/-- Embedding of `AuthManager.cancelPending2FA()`. -/
def AuthManager.cancelPending2FA (s : AuthManagerState) : AuthManagerState :=
  { s with pending2FA := none }

/-- The JSON body `api.login2FA` posts to `/api/login`:
`{ username, password, email_2fa_code }`. -/
structure Login2FARequest where
  username : String
  password : String
  email_2fa_code : String
deriving Repr, DecidableEq

/-- The issuer's answer to a `login2FA` submission. -/
inductive Login2FAApiResult
  | success (accessToken user : String) (refreshToken : Option String)
      (expiresIn : Option Int)
  | failure (msg : String)
deriving Repr, DecidableEq

/-- Embedding of `AuthManager.login2FA(email2FACode)` composed with
`ApiService.login2FA`: throws when no `pending2FA` record exists (no
request is sent); otherwise posts the stored username and password
together with the code.  On a non-ok response the error propagates with
the state unchanged; on success `api.login2FA` stores the tokens
(`setTokens`), `saveAuth` runs and `pending2FA` is cleared.  The second
component is the request sent to the issuer, if any. -/
def AuthManager.login2FA (s : AuthManagerState) (now : Int) (code : String)
    (issuer : Login2FARequest → Login2FAApiResult) :
    AuthManagerState × Option Login2FARequest × Except String Unit :=
  match s.pending2FA with
  | none => (s, none, Except.error "No pending 2FA login")
  | some p =>
    let req : Login2FARequest := ⟨p.username, p.password, code⟩
    match issuer req with
    | Login2FAApiResult.failure m => (s, some req, Except.error m)
    | Login2FAApiResult.success tok user rt ein =>
      let s1 := { s with storage := ApiService.setTokens s.storage now tok rt ein }
      let s2 := AuthManager.saveAuth s1 tok user rt
      ({ s2 with pending2FA := none }, some req, Except.ok ())

/-!
Embedding of `rooms.js` (class `RoomsManager`).
-/

/-- Events `switchRoom` emits on the socket, in order. -/
inductive SocketEvent
  | leave (room : String)
  | join (room : String)
deriving Repr, DecidableEq

/-- Embedding of `RoomsManager.switchRoom(room)`: returns the new
`currentRoom` and the socket events emitted, in order.  When `room`
equals the current room the method returns immediately: no state change
and no events; otherwise it emits `leave` for the current room, updates
`currentRoom`, then emits `join` for the new room. -/
def RoomsManager.switchRoom (currentRoom room : String) :
    String × List SocketEvent :=
  if room = currentRoom then (currentRoom, [])
  else (room, [SocketEvent.leave currentRoom, SocketEvent.join room])

/-- JavaScript `\s` on the characters room names can contain: space, tab,
line feed, vertical tab, form feed, carriage return. -/
def isJsWhitespace (c : Char) : Bool :=
  c = ' ' || c = '\t' || c = '\n' || c = '\r' || c.toNat = 11 || c.toNat = 12

/-- `String.prototype.trim`: drop leading and trailing whitespace. -/
def trimChars (l : List Char) : List Char :=
  ((l.dropWhile isJsWhitespace).reverse.dropWhile isJsWhitespace).reverse

/-- `replace(/\s+/g, '-')`: each maximal whitespace run becomes one `'-'`.
The flag records whether the previous character was part of a run. -/
def collapseWsAux : Bool → List Char → List Char
  | _, [] => []
  | prevWs, c :: cs =>
    if isJsWhitespace c then
      if prevWs then collapseWsAux true cs
      else '-' :: collapseWsAux true cs
    else c :: collapseWsAux false cs

/-- The name normalization in `RoomsManager.createRoom`:
`name.trim().toLowerCase().replace(/\s+/g, '-')`. -/
def normalizeRoomName (name : String) : String :=
  ⟨collapseWsAux false ((trimChars name.data).map Char.toLower)⟩

/-- Embedding of the validation in `RoomsManager.createRoom(name)`:
normalize, reject the empty result, reject a post-normalization length
outside 2–20, reject a name already in `this.rooms`; otherwise the
normalized name is sent to the backend. -/
def RoomsManager.createRoom (rooms : List String) (name : String) :
    Except String String :=
  let trimmedName := normalizeRoomName name
  if trimmedName = "" then Except.error "Room name cannot be empty"
  else if trimmedName.length < 2 || trimmedName.length > 20 then
    Except.error "Room name must be 2-20 characters"
  else if trimmedName ∈ rooms then Except.error "Room already exists"
  else Except.ok trimmedName

/-- Modelled from the spec: the backend room-deletion endpoint
(`DELETE /api/rooms/:name`) is not among the sources — only the frontend
caller is — and per the spec a successful deletion removes the room, so a
subsequent listing no longer contains it. -/
def backendDeleteRoom (serverRooms : List String) (name : String) :
    List String :=
  serverRooms.erase name

/-- Embedding of `RoomsManager.deleteRoom(name)` against the modelled
backend: deleting `general` throws before any request is issued; any
other name is deleted on the backend and the rooms list reloaded.  The
second component counts delete requests issued. -/
def RoomsManager.deleteRoom (serverRooms : List String) (name : String) :
    Except String (List String) × Nat :=
  if name = "general" then (Except.error "Cannot delete the general room", 0)
  else (Except.ok (backendDeleteRoom serverRooms name), 1)

/-!
Theorems settling the claims.
-/

/-- Claim C6: `isTokenExpiringSoon()` returns true exactly when no expiry
instant is recorded, or the current time exceeds the recorded expiry
minus the 120-second refresh skew; in particular, with no recorded
expiry it returns true. -/
theorem C6_isTokenExpiringSoon (s : Storage) (now : Int) :
    (ApiService.isTokenExpiringSoon s now = true ↔
      s.tokenExpiry = none ∨ ∃ e, s.tokenExpiry = some e ∧ now > e - 120000) ∧
    (s.tokenExpiry = none → ApiService.isTokenExpiringSoon s now = true) := by
  constructor
  · cases h : s.tokenExpiry with
    | none => simp [ApiService.isTokenExpiringSoon, h]
    | some e => simp [ApiService.isTokenExpiringSoon, h]
  · intro h
    simp [ApiService.isTokenExpiringSoon, h]

/-- Witness for C6: a state with no recorded expiry is reported as expiring
soon. -/
theorem C6_isTokenExpiringSoon_witness :
    ApiService.isTokenExpiringSoon ⟨some "t", some "r", none, none⟩ 5 = true :=
  (C6_isTokenExpiringSoon ⟨some "t", some "r", none, none⟩ 5).2 rfl

/-- Claim C10: on a successful refresh the access token and the expiry are
overwritten while the refresh-token slot and the user record are left
unchanged, because the refresh path passes `null` for the refresh token
and `setTokens` skips the slot when it is absent. -/
theorem C10_refresh_frame (s : Storage) (now : Int) (resp : RefreshResponse)
    (rt : String) (hrt : s.refreshToken = some rt) (hok : resp.ok = true)
    (e : Int) (he : resp.expires_in = some e) (hne : e ≠ 0) :
    (ApiService.refreshAccessToken s now resp).1.token = some resp.access_token ∧
    (ApiService.refreshAccessToken s now resp).1.tokenExpiry = some (now + e * 1000) ∧
    (ApiService.refreshAccessToken s now resp).1.refreshToken = s.refreshToken ∧
    (ApiService.refreshAccessToken s now resp).1.user = s.user := by
  simp [ApiService.refreshAccessToken, hrt, hok, ApiService.setTokens, he, hne]

/-- Witness for C10 at a concrete state and response. -/
theorem C10_refresh_frame_witness :
    (ApiService.refreshAccessToken ⟨some "t", some "r", some 5, some "u"⟩ 0
      ⟨true, "newtok", some 60⟩).1.token = some "newtok" ∧
    (ApiService.refreshAccessToken ⟨some "t", some "r", some 5, some "u"⟩ 0
      ⟨true, "newtok", some 60⟩).1.tokenExpiry = some 60000 ∧
    (ApiService.refreshAccessToken ⟨some "t", some "r", some 5, some "u"⟩ 0
      ⟨true, "newtok", some 60⟩).1.refreshToken = some "r" ∧
    (ApiService.refreshAccessToken ⟨some "t", some "r", some 5, some "u"⟩ 0
      ⟨true, "newtok", some 60⟩).1.user = some "u" :=
  C10_refresh_frame ⟨some "t", some "r", some 5, some "u"⟩ 0
    ⟨true, "newtok", some 60⟩ "r" rfl rfl 60 rfl (by decide)

/-- Claim C5 counterexample: a rejected refresh raises the error yet leaves
the stored user record (the identity component of the Credential) in
place — `clearTokens` removes only the token, refresh-token and expiry
slots — so the Credential is not cleared in its entirety. -/
theorem C5_counterexample :
    (ApiService.refreshAccessToken ⟨some "t", some "r", some 99, some "alice"⟩ 0
        ⟨false, "", none⟩).2 = Except.error "Token refresh failed" ∧
    (ApiService.refreshAccessToken ⟨some "t", some "r", some 99, some "alice"⟩ 0
        ⟨false, "", none⟩).1.user = some "alice" := by
  exact ⟨rfl, rfl⟩

/-- Claim C5 as amended: whenever the issuer rejects the refresh exchange,
the stored access token, refresh token and expiry are cleared before the
error is raised, while the cached user record is left unchanged (only
`AuthManager.clearAuth`, not the refresh path, removes it). -/
theorem C5_refresh_rejection_clears_tokens (s : Storage) (now : Int)
    (resp : RefreshResponse) (rt : String) (hrt : s.refreshToken = some rt)
    (hok : resp.ok = false) :
    (ApiService.refreshAccessToken s now resp).1.token = none ∧
    (ApiService.refreshAccessToken s now resp).1.refreshToken = none ∧
    (ApiService.refreshAccessToken s now resp).1.tokenExpiry = none ∧
    (ApiService.refreshAccessToken s now resp).1.user = s.user ∧
    (ApiService.refreshAccessToken s now resp).2 =
      Except.error "Token refresh failed" := by
  simp [ApiService.refreshAccessToken, hrt, hok, ApiService.clearTokens]

/-- Witness for the amended C5 at a concrete state and rejection. -/
theorem C5_refresh_rejection_witness :
    (ApiService.refreshAccessToken ⟨some "t", some "r", some 99, some "bob"⟩ 0
        ⟨false, "x", none⟩).1.token = none ∧
    (ApiService.refreshAccessToken ⟨some "t", some "r", some 99, some "bob"⟩ 0
        ⟨false, "x", none⟩).1.refreshToken = none ∧
    (ApiService.refreshAccessToken ⟨some "t", some "r", some 99, some "bob"⟩ 0
        ⟨false, "x", none⟩).1.tokenExpiry = none ∧
    (ApiService.refreshAccessToken ⟨some "t", some "r", some 99, some "bob"⟩ 0
        ⟨false, "x", none⟩).1.user = some "bob" ∧
    (ApiService.refreshAccessToken ⟨some "t", some "r", some 99, some "bob"⟩ 0
        ⟨false, "x", none⟩).2 = Except.error "Token refresh failed" :=
  C5_refresh_rejection_clears_tokens ⟨some "t", some "r", some 99, some "bob"⟩ 0
    ⟨false, "x", none⟩ "r" rfl rfl

/-- Claim C4: switching to the room one is already in is a no-op that emits
no events (join stays idempotent, no duplicate notification); switching
to a different room emits `leave` for the current room before `join` for
the new one, and the connection's membership remains the single
`currentRoom` value, preserving the at-most-one-room invariant. -/
theorem C4_switchRoom (c r : String) :
    (r = c → RoomsManager.switchRoom c r = (c, [])) ∧
    (r ≠ c → RoomsManager.switchRoom c r =
      (r, [SocketEvent.leave c, SocketEvent.join r])) ∧
    ((RoomsManager.switchRoom c r).2 = [] ∨
      (RoomsManager.switchRoom c r).2 =
        [SocketEvent.leave c, SocketEvent.join r]) := by
  by_cases h : r = c
  · refine ⟨fun _ => ?_, fun hne => absurd h hne, ?_⟩
    · simp [RoomsManager.switchRoom, h]
    · left
      simp [RoomsManager.switchRoom, h]
  · refine ⟨fun he => absurd he h, fun _ => ?_, ?_⟩
    · simp [RoomsManager.switchRoom, h]
    · right
      simp [RoomsManager.switchRoom, h]

/-- Witness for C4: a same-room switch is a no-op with no events, and a
cross-room switch emits leave-then-join. -/
theorem C4_switchRoom_witness :
    RoomsManager.switchRoom "general" "general" = ("general", []) ∧
    RoomsManager.switchRoom "general" "dev" =
      ("dev", [SocketEvent.leave "general", SocketEvent.join "dev"]) :=
  ⟨(C4_switchRoom "general" "general").1 rfl,
    (C4_switchRoom "general" "dev").2.1 (by decide)⟩

/-- Claim C9: deleting `general` always fails with the protection error and
issues no delete request, and deleting any other existing room succeeds
and removes it from the subsequent listing. -/
theorem C9_deleteRoom (rooms : List String) (name : String) :
    RoomsManager.deleteRoom rooms "general" =
      (Except.error "Cannot delete the general room", 0) ∧
    (name ∈ rooms → name ≠ "general" → rooms.Nodup →
      RoomsManager.deleteRoom rooms name =
        (Except.ok (rooms.erase name), 1) ∧ name ∉ rooms.erase name) := by
  constructor
  · simp [RoomsManager.deleteRoom]
  · intro _hmem hne hd
    refine ⟨by simp [RoomsManager.deleteRoom, backendDeleteRoom, hne], ?_⟩
    intro hmem2
    exact absurd ((List.Nodup.mem_erase_iff hd).mp hmem2).1 (by simp)

/-- Witness for C9: deleting an existing non-general room from a concrete
listing succeeds and removes it. -/
theorem C9_deleteRoom_witness :
    RoomsManager.deleteRoom ["general", "dev"] "general" =
      (Except.error "Cannot delete the general room", 0) ∧
    RoomsManager.deleteRoom ["general", "dev"] "dev" =
      (Except.ok ["general"], 1) ∧ "dev" ∉ ["general", "dev"].erase "dev" :=
  ⟨(C9_deleteRoom ["general", "dev"] "dev").1,
    by
      have h := (C9_deleteRoom ["general", "dev"] "dev").2 (by decide)
        (by decide) (by decide)
      simpa using h⟩

/-- Helper: calls arriving while an exchange is in flight change nothing and
all receive the in-flight promise. -/
theorem refreshBurst_inflight (p ex n : Nat) :
    ApiService.refreshBurst ⟨some p, ex⟩ n =
      (⟨some p, ex⟩, List.replicate n (Except.ok p)) := by
  induction n with
  | zero => rfl
  | succ n ih =>
    simp [ApiService.refreshBurst, ApiService.refreshCall, ih,
      List.replicate_succ]

/-- Claim C1: for a burst of `refreshAccessToken` calls arriving while the
first one's exchange is in flight, exactly one network exchange with the
issuer starts, every caller receives the promise of that one exchange,
and awaiting it delivers that exchange's settlement — the same outcome,
success or failure, to every caller. -/
theorem C1_single_flight (ex n : Nat)
    (outcome : Nat → Except String RefreshResponse) :
    (ApiService.refreshBurst ⟨none, ex⟩ (n + 1)).1.exchanges = ex + 1 ∧
    (∀ r ∈ (ApiService.refreshBurst ⟨none, ex⟩ (n + 1)).2, r = Except.ok ex) ∧
    (∀ r ∈ (ApiService.refreshBurst ⟨none, ex⟩ (n + 1)).2,
      ApiService.awaitRefresh outcome r = outcome ex) := by
  have h : ApiService.refreshBurst ⟨none, ex⟩ (n + 1) =
      (⟨some ex, ex + 1⟩, Except.ok ex :: List.replicate n (Except.ok ex)) := by
    simp [ApiService.refreshBurst, ApiService.refreshCall,
      refreshBurst_inflight]
  rw [h]
  have hmem : ∀ r ∈ Except.ok ex :: List.replicate n (Except.ok (ε := String) ex),
      r = Except.ok ex := by
    intro r hr
    rcases List.mem_cons.mp hr with h1 | h1
    · exact h1
    · exact List.eq_of_mem_replicate h1
  refine ⟨rfl, hmem, ?_⟩
  intro r hr
  rw [hmem r hr]
  rfl

/-- Witness for C1: three concurrent callers, one exchange started, and an
issuer failure is delivered to a waiter, not only to the first caller. -/
theorem C1_single_flight_witness :
    (ApiService.refreshBurst ⟨none, 0⟩ 3).1.exchanges = 1 ∧
    ApiService.awaitRefresh (fun _ => Except.error "refresh rejected")
      (Except.ok 0) = Except.error "refresh rejected" := by
  refine ⟨(C1_single_flight 0 2 (fun _ => Except.error "refresh rejected")).1, ?_⟩
  exact (C1_single_flight 0 2 (fun _ => Except.error "refresh rejected")).2.2
    (Except.ok 0) (List.Mem.head _)

/-- Claim C3 counterexample: with a `PendingStepUp` in place, a new login
attempt that fails with an error leaves the old record intact — the
`await api.login` throw happens before any assignment — so the record is
not discarded unconditionally. -/
theorem C3_counterexample :
    (AuthManager.login
        ⟨⟨none, none, none, none⟩, some ⟨"u0", "p0", "h0"⟩, none, none⟩
        "u1" "p1" (LoginApiResult.failure "Invalid credentials")).2 =
      Except.error "Invalid credentials" ∧
    (AuthManager.login
        ⟨⟨none, none, none, none⟩, some ⟨"u0", "p0", "h0"⟩, none, none⟩
        "u1" "p1" (LoginApiResult.failure "Invalid credentials")).1.pending2FA =
      some ⟨"u0", "p0", "h0"⟩ :=
  ⟨rfl, rfl⟩

/-- Claim C3 as amended: a new login attempt replaces the existing
`PendingStepUp` when it branches into a second-factor requirement and
clears it when it succeeds, but a login attempt that fails with an error
leaves the entire state — the pending record included — unchanged;
explicit cancellation clears the record unconditionally. -/
theorem C3_pending_discard (s : AuthManagerState) (u p : String)
    (resp : LoginApiResult) :
    (∀ tok user rt, resp = LoginApiResult.success tok user rt →
      (AuthManager.login s u p resp).1.pending2FA = none) ∧
    (∀ hint, resp = LoginApiResult.requires2fa hint →
      (AuthManager.login s u p resp).1.pending2FA = some ⟨u, p, hint⟩) ∧
    (∀ m, resp = LoginApiResult.failure m →
      (AuthManager.login s u p resp).1 = s) ∧
    (AuthManager.cancelPending2FA s).pending2FA = none := by
  refine ⟨?_, ?_, ?_, rfl⟩
  · intro tok user rt h
    subst h
    rfl
  · intro hint h
    subst h
    rfl
  · intro m h
    subst h
    rfl

/-- Witness for the amended C3 at concrete inputs: success clears the
pending record, a second-factor branch replaces it, and a failed attempt
retains it. -/
theorem C3_pending_discard_witness :
    (AuthManager.login
        ⟨⟨none, none, none, none⟩, some ⟨"u0", "p0", "h0"⟩, none, none⟩
        "u1" "p1" (LoginApiResult.success "tok" "alice" none)).1.pending2FA =
      none ∧
    (AuthManager.login
        ⟨⟨none, none, none, none⟩, some ⟨"u0", "p0", "h0"⟩, none, none⟩
        "u1" "p1" (LoginApiResult.requires2fa "a***@b.c")).1.pending2FA =
      some ⟨"u1", "p1", "a***@b.c"⟩ ∧
    (AuthManager.login
        ⟨⟨none, none, none, none⟩, some ⟨"u0", "p0", "h0"⟩, none, none⟩
        "u1" "p1" (LoginApiResult.failure "bad")).1 =
      ⟨⟨none, none, none, none⟩, some ⟨"u0", "p0", "h0"⟩, none, none⟩ :=
  ⟨(C3_pending_discard _ "u1" "p1" _).1 "tok" "alice" none rfl,
    (C3_pending_discard _ "u1" "p1" _).2.1 "a***@b.c" rfl,
    (C3_pending_discard _ "u1" "p1" _).2.2.1 "bad" rfl⟩

/-- Claim C7: completing the second factor is possible only while a
`PendingStepUp` exists — otherwise the call throws and no request is
sent; when one exists, the request resubmits the originally stored
username and password together with the code (the code is never sent
alone); on issuer success the pending record is cleared and the issued
token is stored in memory and in storage. -/
theorem C7_login2FA (s : AuthManagerState) (now : Int) (code : String)
    (issuer : Login2FARequest → Login2FAApiResult) :
    (s.pending2FA = none →
      AuthManager.login2FA s now code issuer =
        (s, none, Except.error "No pending 2FA login")) ∧
    (∀ p, s.pending2FA = some p →
      (AuthManager.login2FA s now code issuer).2.1 =
        some ⟨p.username, p.password, code⟩) ∧
    (∀ p tok user rt ein, s.pending2FA = some p →
      issuer ⟨p.username, p.password, code⟩ =
        Login2FAApiResult.success tok user rt ein →
      (AuthManager.login2FA s now code issuer).1.pending2FA = none ∧
      (AuthManager.login2FA s now code issuer).1.authToken = some tok ∧
      (AuthManager.login2FA s now code issuer).1.storage.token = some tok ∧
      (AuthManager.login2FA s now code issuer).1.storage.user = some user) := by
  refine ⟨?_, ?_, ?_⟩
  · intro h
    simp [AuthManager.login2FA, h]
  · intro p h
    cases hi : issuer ⟨p.username, p.password, code⟩ with
    | success tok user rt ein => simp [AuthManager.login2FA, h, hi]
    | failure m => simp [AuthManager.login2FA, h, hi]
  · intro p tok user rt ein h hi
    cases rt with
    | none => simp [AuthManager.login2FA, h, hi, AuthManager.saveAuth]
    | some r =>
      by_cases hr : r = "" <;>
        simp [AuthManager.login2FA, h, hi, AuthManager.saveAuth, hr]

/-- Witness for C7 at a concrete state: the request carries the stored
credentials and the code, and success clears the record and stores the
token. -/
theorem C7_login2FA_witness :
    (AuthManager.login2FA
        ⟨⟨none, none, none, none⟩, some ⟨"u", "p", "h"⟩, none, none⟩ 0 "123456"
        (fun _ => Login2FAApiResult.success "tok" "alice" none none)).2.1 =
      some ⟨"u", "p", "123456"⟩ ∧
    (AuthManager.login2FA
        ⟨⟨none, none, none, none⟩, some ⟨"u", "p", "h"⟩, none, none⟩ 0 "123456"
        (fun _ => Login2FAApiResult.success "tok" "alice" none none)).1.pending2FA =
      none ∧
    (AuthManager.login2FA
        ⟨⟨none, none, none, none⟩, some ⟨"u", "p", "h"⟩, none, none⟩ 0 "123456"
        (fun _ => Login2FAApiResult.success "tok" "alice" none none)).1.storage.token =
      some "tok" := by
  have h := C7_login2FA
    ⟨⟨none, none, none, none⟩, some ⟨"u", "p", "h"⟩, none, none⟩ 0 "123456"
    (fun _ => Login2FAApiResult.success "tok" "alice" none none)
  exact ⟨h.2.1 ⟨"u", "p", "h"⟩ rfl,
    (h.2.2 ⟨"u", "p", "h"⟩ "tok" "alice" none none rfl rfl).1,
    (h.2.2 ⟨"u", "p", "h"⟩ "tok" "alice" none none rfl rfl).2.2.1⟩

/-- Helper: the pre-request refresh step issues at most one exchange. -/
theorem preRefresh_snd_le (s : Storage) (now : Int) (r : RefreshResponse) :
    (ApiService.preRefresh s now r).2 ≤ 1 := by
  unfold ApiService.preRefresh
  split <;> simp

/-- Helper: with no refresh token stored, the pre-request step does
nothing. -/
theorem preRefresh_noRT (s : Storage) (now : Int) (r : RefreshResponse)
    (h : s.refreshToken = none) : ApiService.preRefresh s now r = (s, 0) := by
  unfold ApiService.preRefresh
  simp [h]

/-- Helper: when the token is expiring soon and a refresh token is stored,
the pre-request step issues exactly one exchange. -/
theorem preRefresh_active (s : Storage) (now : Int) (r : RefreshResponse)
    (h1 : ApiService.isTokenExpiringSoon s now = true)
    (h2 : s.refreshToken.isSome = true) :
    (ApiService.preRefresh s now r).2 = 1 := by
  unfold ApiService.preRefresh
  simp [h1, h2]

/-- Helper: explicit case form of `fetchWithAuth`. -/
theorem fetchWithAuth_eq (s : Storage) (now : Int) (sc : FetchScript) :
    ApiService.fetchWithAuth s now sc =
      if sc.status1 = 401 ∧
          (ApiService.preRefresh s now sc.refreshResp1).1.refreshToken.isSome = true then
        if sc.refreshResp2.ok then
          { refreshCalls := (ApiService.preRefresh s now sc.refreshResp1).2 + 1,
            fetchCalls := 2, status := sc.status2,
            storage := (ApiService.refreshAccessToken
              (ApiService.preRefresh s now sc.refreshResp1).1 now sc.refreshResp2).1 }
        else
          { refreshCalls := (ApiService.preRefresh s now sc.refreshResp1).2 + 1,
            fetchCalls := 1, status := sc.status1,
            storage := (ApiService.refreshAccessToken
              (ApiService.preRefresh s now sc.refreshResp1).1 now sc.refreshResp2).1 }
      else
        { refreshCalls := (ApiService.preRefresh s now sc.refreshResp1).2,
          fetchCalls := 1, status := sc.status1,
          storage := (ApiService.preRefresh s now sc.refreshResp1).1 } := by
  unfold ApiService.fetchWithAuth
  by_cases h401 : sc.status1 = 401
  · cases hrt : (ApiService.preRefresh s now sc.refreshResp1).1.refreshToken with
    | none => simp [h401, hrt]
    | some rt =>
      by_cases hok : sc.refreshResp2.ok
      · simp [h401, hrt, hok, ApiService.refreshAccessToken]
      · simp [h401, hrt, hok, ApiService.refreshAccessToken]
  · simp [h401]

/-- Claim C2 counterexample: with a stored refresh token, a token that is
not expiring soon, a 401 response to the request and an issuer that
rejects the 401-path refresh, one refresh is attempted but the request
is not retried — the original 401 is returned after a single attempt —
whereas the claim requires the operation to be retried exactly once
after the refresh attempt. -/
theorem C2_counterexample :
    (ApiService.fetchWithAuth ⟨some "t", some "r", some 1000000, some "u"⟩ 0
        ⟨⟨true, "na", none⟩, 401, ⟨false, "", none⟩, 200⟩).refreshCalls = 1 ∧
    (ApiService.fetchWithAuth ⟨some "t", some "r", some 1000000, some "u"⟩ 0
        ⟨⟨true, "na", none⟩, 401, ⟨false, "", none⟩, 200⟩).fetchCalls ≠ 2 ∧
    (ApiService.fetchWithAuth ⟨some "t", some "r", some 1000000, some "u"⟩ 0
        ⟨⟨true, "na", none⟩, 401, ⟨false, "", none⟩, 200⟩).status = 401 := by
  refine ⟨rfl, ?_, rfl⟩
  decide

/-- Claim C2 as amended: when the token is expiring soon and a refresh
token is stored, one refresh is attempted first and the request is made
regardless of its outcome; without a refresh token no refresh is ever
attempted and the first response is returned; on a non-401 response the
request is made once and returned; on a 401 with a refresh token still
stored exactly one more refresh is attempted — when it succeeds the
request is retried exactly once and that second response (even another
401) is returned with no further attempts, and when it fails the request
is not retried and the original 401 is returned. -/
theorem C2_fetchWithAuth_policy (s : Storage) (now : Int) (sc : FetchScript) :
    (ApiService.fetchWithAuth s now sc).refreshCalls ≤ 2 ∧
    (ApiService.fetchWithAuth s now sc).fetchCalls ≤ 2 ∧
    (s.refreshToken = none →
      (ApiService.fetchWithAuth s now sc).refreshCalls = 0 ∧
      (ApiService.fetchWithAuth s now sc).fetchCalls = 1 ∧
      (ApiService.fetchWithAuth s now sc).status = sc.status1) ∧
    (ApiService.isTokenExpiringSoon s now = true → s.refreshToken.isSome = true →
      (ApiService.preRefresh s now sc.refreshResp1).2 = 1 ∧
      1 ≤ (ApiService.fetchWithAuth s now sc).fetchCalls) ∧
    (sc.status1 ≠ 401 →
      (ApiService.fetchWithAuth s now sc).fetchCalls = 1 ∧
      (ApiService.fetchWithAuth s now sc).status = sc.status1 ∧
      (ApiService.fetchWithAuth s now sc).refreshCalls =
        (ApiService.preRefresh s now sc.refreshResp1).2) ∧
    (sc.status1 = 401 →
      (ApiService.preRefresh s now sc.refreshResp1).1.refreshToken.isSome = true →
      (ApiService.fetchWithAuth s now sc).refreshCalls =
        (ApiService.preRefresh s now sc.refreshResp1).2 + 1 ∧
      (sc.refreshResp2.ok = true →
        (ApiService.fetchWithAuth s now sc).fetchCalls = 2 ∧
        (ApiService.fetchWithAuth s now sc).status = sc.status2) ∧
      (sc.refreshResp2.ok = false →
        (ApiService.fetchWithAuth s now sc).fetchCalls = 1 ∧
        (ApiService.fetchWithAuth s now sc).status = sc.status1)) ∧
    (sc.status1 = 401 →
      (ApiService.preRefresh s now sc.refreshResp1).1.refreshToken = none →
      (ApiService.fetchWithAuth s now sc).fetchCalls = 1 ∧
      (ApiService.fetchWithAuth s now sc).status = sc.status1) := by
  have hle := preRefresh_snd_le s now sc.refreshResp1
  rw [fetchWithAuth_eq]
  by_cases hc : sc.status1 = 401 ∧
      (ApiService.preRefresh s now sc.refreshResp1).1.refreshToken.isSome = true
  · rw [if_pos hc]
    by_cases hok : sc.refreshResp2.ok = true
    · rw [if_pos hok]
      dsimp only
      refine ⟨by omega, by omega, ?_, ?_, ?_, ?_, ?_⟩
      · intro hn
        rw [preRefresh_noRT s now sc.refreshResp1 hn] at hc
        simp [hn] at hc
      · intro h1 h2
        refine ⟨preRefresh_active s now sc.refreshResp1 h1 h2, ?_⟩
        omega
      · intro hne
        exact absurd hc.1 hne
      · intro _ _
        refine ⟨rfl, fun _ => ⟨rfl, rfl⟩, fun hf => ?_⟩
        simp [hf] at hok
      · intro _ hnone
        exact absurd hc.2 (by simp [hnone])
    · rw [if_neg hok]
      dsimp only
      refine ⟨by omega, by omega, ?_, ?_, ?_, ?_, ?_⟩
      · intro hn
        rw [preRefresh_noRT s now sc.refreshResp1 hn] at hc
        simp [hn] at hc
      · intro h1 h2
        refine ⟨preRefresh_active s now sc.refreshResp1 h1 h2, ?_⟩
        omega
      · intro hne
        exact absurd hc.1 hne
      · intro _ _
        exact ⟨rfl, fun ht => absurd ht hok, fun _ => ⟨rfl, rfl⟩⟩
      · intro _ hnone
        exact absurd hc.2 (by simp [hnone])
  · rw [if_neg hc]
    dsimp only
    refine ⟨by omega, by omega, ?_, ?_, ?_, ?_, ?_⟩
    · intro hn
      refine ⟨?_, rfl, rfl⟩
      rw [preRefresh_noRT s now sc.refreshResp1 hn]
    · intro h1 h2
      refine ⟨preRefresh_active s now sc.refreshResp1 h1 h2, ?_⟩
      omega
    · intro _
      exact ⟨rfl, rfl, rfl⟩
    · intro h401 hsome
      exact absurd ⟨h401, hsome⟩ hc
    · intro _ _
      exact ⟨rfl, rfl⟩

/-- Witness for the amended C2: concrete runs hitting the successful-retry
path and the pre-refresh path. -/
theorem C2_fetchWithAuth_policy_witness :
    (ApiService.fetchWithAuth ⟨some "t", some "r", some 1000000, some "u"⟩ 0
        ⟨⟨true, "na", none⟩, 401, ⟨true, "t2", some 60⟩, 200⟩).fetchCalls = 2 ∧
    (ApiService.fetchWithAuth ⟨some "t", some "r", some 1000000, some "u"⟩ 0
        ⟨⟨true, "na", none⟩, 401, ⟨true, "t2", some 60⟩, 200⟩).status = 200 ∧
    (ApiService.preRefresh ⟨some "t", some "r", some 1000, some "u"⟩ 60000
        ⟨true, "t3", some 60⟩).2 = 1 := by
  have h1 := C2_fetchWithAuth_policy ⟨some "t", some "r", some 1000000, some "u"⟩ 0
    ⟨⟨true, "na", none⟩, 401, ⟨true, "t2", some 60⟩, 200⟩
  have h2 := C2_fetchWithAuth_policy ⟨some "t", some "r", some 1000, some "u"⟩ 60000
    ⟨⟨true, "t3", some 60⟩, 200, ⟨true, "t3", some 60⟩, 200⟩
  refine ⟨?_, ?_, ?_⟩
  · exact ((h1.2.2.2.2.2.1 rfl (by decide)).2.1 rfl).1
  · exact ((h1.2.2.2.2.2.1 rfl (by decide)).2.1 rfl).2
  · exact (h2.2.2.2.1 (by decide) (by decide)).1

/-- Claim C8: `createRoom` normalizes the requested name by trimming,
lower-casing and collapsing each internal whitespace run to a single
separator — so `"  My Room  "` normalizes to `"my-room"` — and rejects
the request when the post-normalization length is below 2 or above 20 or
when a room with the normalized name already exists; a created name is
always the normalization, length-constrained and fresh. -/
theorem C8_createRoom (rooms : List String) (name : String) :
    normalizeRoomName "  My Room  " = "my-room" ∧
    ((normalizeRoomName name).length < 2 ∨ 20 < (normalizeRoomName name).length →
      ∃ msg, RoomsManager.createRoom rooms name = Except.error msg) ∧
    (normalizeRoomName name ∈ rooms →
      ∃ msg, RoomsManager.createRoom rooms name = Except.error msg) ∧
    (∀ r, RoomsManager.createRoom rooms name = Except.ok r →
      r = normalizeRoomName name ∧ 2 ≤ r.length ∧ r.length ≤ 20 ∧ r ∉ rooms) := by
  refine ⟨by decide, ?_, ?_, ?_⟩
  · intro h
    simp only [RoomsManager.createRoom]
    split_ifs with h0 h1 h2
    · exact ⟨_, rfl⟩
    · exact ⟨_, rfl⟩
    · exact ⟨_, rfl⟩
    · exfalso
      simp only [Bool.or_eq_true, decide_eq_true_eq, not_or, not_lt] at h1
      rcases h with hlt | hgt
      · omega
      · omega
  · intro h
    simp only [RoomsManager.createRoom]
    split_ifs with h0 h1
    · exact ⟨_, rfl⟩
    · exact ⟨_, rfl⟩
    · exact ⟨_, rfl⟩
  · intro r hr
    simp only [RoomsManager.createRoom] at hr
    split_ifs at hr with h0 h1 h2
    injection hr with hr
    subst hr
    simp only [Bool.or_eq_true, decide_eq_true_eq, not_or, not_lt] at h1
    exact ⟨rfl, h1.1, h1.2, h2⟩

/-- Witness for C8: the doubled creation from the spec scenario is rejected
on a concrete listing, and a too-short name is rejected. -/
theorem C8_createRoom_witness :
    (∃ msg, RoomsManager.createRoom ["my-room"] "  My Room  " =
      Except.error msg) ∧
    (∃ msg, RoomsManager.createRoom [] "x" = Except.error msg) :=
  ⟨(C8_createRoom ["my-room"] "  My Room  ").2.2.1 (by decide),
    (C8_createRoom [] "x").2.1 (by decide)⟩

end WebChat
